import Mathlib

/-!
Verification development for the detection-and-correlation pipeline:
shallow embedding of the correlation engine (`agents/correlation/agent.py`),
the deterministic decision fallback (`agents/llm_reasoner/agent.py`),
the rule-based log classifier (`agents/log_analyzer/agent.py`) and the
windowed network anomaly tracker (`log_ingestors/network_capture.py`),
together with theorems about their behaviour.
-/

/-! ## Data model (`agents/types.py`) -/

/-- `ThreatFinding` from `agents/types.py`.  `source_ip` is `Optional[str]`
in the source; `none` models Python `None`. -/
structure ThreatFinding where
  agent_name : String
  threat_type : String
  description : String
  severity : String
  source_ip : Option String
deriving DecidableEq, Repr

/-- The correlated-event dictionaries built by `CorrelationAgent.correlate`.
Pattern events carry no `agent` key; pass-through events do, modelled by
`Option`. -/
structure CorrelatedEvent where
  attack : String
  severity : String
  source : String
  agent : Option String
  description : String
deriving DecidableEq, Repr

/-! ## Correlation engine (`agents/correlation/agent.py`) -/

/-- The grouping key used by `correlate`: Python
`if f.source_ip and f.source_ip != "Unknown"` — an IP is a grouping key
exactly when it is present, non-empty, and not the `"Unknown"` sentinel. -/
def keyOf (f : ThreatFinding) : Option String :=
  match f.source_ip with
  | none => none
  | some s => if s = "" ∨ s = "Unknown" then none else some s

/-- The event appended for a finding whose identity is unknown
(the `else` branch of the first loop in `correlate`). -/
def unknownEvent (f : ThreatFinding) : CorrelatedEvent :=
  { attack := f.threat_type, severity := f.severity, source := "Unknown",
    agent := some f.agent_name, description := f.description }

/-- The pass-through event for one member finding of an identity group
(the final `else` branch of `correlate`). -/
def passEvent (ip : String) (f : ThreatFinding) : CorrelatedEvent :=
  { attack := f.threat_type, severity := f.severity, source := ip,
    agent := some f.agent_name, description := f.description }

/-- The events `correlate` emits for one identity group: the three campaign
patterns in source order (`elif` chain, first match wins), else one
pass-through event per member finding. -/
def groupEvents (ip : String) (fs : List ThreatFinding) : List CorrelatedEvent :=
  let threat_types := fs.map (fun f => f.threat_type)
  let agent_names := fs.map (fun f => f.agent_name)
  if "EmailVerificationAgent" ∈ agent_names ∧ "LogAnalysisAgent" ∈ agent_names then
    [{ attack := "MULTI_VECTOR_CAMPAIGN", severity := "CRITICAL", source := ip,
       agent := none,
       description := "IP " ++ ip ++ " linked to both Phishing Email and suspicious Log activity." }]
  else if "IPRangeAnalyzerAgent" ∈ agent_names ∧ "LogAnalysisAgent" ∈ agent_names then
    [{ attack := "TARGETED_EXPLOITATION", severity := "CRITICAL", source := ip,
       agent := none,
       description := "IP " ++ ip ++ " showed vulnerabilities in scan and now active exploit in logs." }]
  else if "BRUTE_FORCE" ∈ threat_types ∧
      ("SQL_INJECTION" ∈ threat_types ∨ "XSS_ATTACK" ∈ threat_types) then
    [{ attack := "ADVANCED_PERSISTENT_THREAT", severity := "CRITICAL", source := ip,
       agent := none,
       description := "IP " ++ ip ++ " exhibited brute force followed by injection attempts." }]
  else
    fs.map (passEvent ip)

/-- Append a key to the list of group keys unless already present —
the behaviour of inserting into the (insertion-ordered) Python dict
`ip_groups`. -/
def insertKey (ks : List String) (ip : String) : List String :=
  if ip ∈ ks then ks else ks ++ [ip]

/-- Accumulate the identity keys of a finding list in first-encounter
order, mirroring the first loop of `correlate` filling `ip_groups`. -/
def groupKeysAux (ks : List String) : List ThreatFinding → List String
  | [] => ks
  | f :: rest =>
    groupKeysAux (match keyOf f with
      | some ip => insertKey ks ip
      | none => ks) rest

/-- The identity keys of `ip_groups`, in first-encounter order. -/
def groupKeys (l : List ThreatFinding) : List String :=
  groupKeysAux [] l

/-- The member findings of one identity group, in input order
(`ip_groups[ip]`). -/
def groupOf (l : List ThreatFinding) (ip : String) : List ThreatFinding :=
  l.filter (fun f => keyOf f = some ip)

/-- The findings with no usable identity, in input order. -/
def unknownFindings (l : List ThreatFinding) : List ThreatFinding :=
  l.filter (fun f => keyOf f = none)

/-- `CorrelationAgent.correlate`: unknown-identity findings are emitted
individually (in input order, all during the first loop, hence first),
then each identity group (in first-encounter order) contributes its
campaign or pass-through events. -/
def correlate (l : List ThreatFinding) : List CorrelatedEvent :=
  (unknownFindings l).map unknownEvent
    ++ (groupKeys l).flatMap (fun ip => groupEvents ip (groupOf l ip))

/-! ## Decision fallback (`agents/llm_reasoner/agent.py`, `_mock_reason`) -/

/-- A remediation decision as produced by `LLMReasoningAgent`. -/
structure Decision where
  decision : String
  severity : String
  actions : List String
  reason : String
deriving DecidableEq, Repr

/-- The decision `_mock_reason` builds for a single correlated event:
a three-way branch on the event's `attack` tag. -/
def mockDecide (e : CorrelatedEvent) : Decision :=
  if e.attack = "ACCOUNT_COMPROMISE" ∨ e.attack = "ADVANCED_PERSISTENT_THREAT" then
    { decision := "IMMEDIATE_LOCKDOWN", severity := "CRITICAL",
      actions := ["Disable affected account", "Force password reset", "Block attacker IP"],
      reason := "Correlated brute-force and high-risk injection attempts detected" }
  else if e.attack = "DATABASE_ATTACK" ∨ e.attack = "SQL_INJECTION" then
    { decision := "DATABASE_ISOLATION", severity := "CRITICAL",
      actions := ["Kill active DB sessions", "Reset database credentials", "Lock down database subnet"],
      reason := "High-severity SQL injection attempts detected" }
  else
    { decision := "PERIMETER_REINFORCEMENT", severity := "MEDIUM",
      actions := ["Update WAF rules", "Patch affected application components"],
      reason := "Detected " ++ e.attack ++ " pattern requiring mitigation" }

/-- `LLMReasoningAgent._mock_reason`: one decision per input event,
in input order. -/
def mock_reason (events : List CorrelatedEvent) : List Decision :=
  events.map mockDecide

/-! ## Log classifier (`agents/log_analyzer/agent.py`)

Lines are modelled as `List Char`; Python `s.lower()` / `s.upper()` become
`List.map Char.toLower` / `Char.toUpper` (the inputs of interest are ASCII),
and Python substring tests become `occursIn`. -/

/-- `startsWithL pat cs` is true when `pat` is a leading run of `cs`. -/
def startsWithL : List Char → List Char → Bool
  | [], _ => true
  | _ :: _, [] => false
  | p :: ps, c :: cs => p == c && startsWithL ps cs

/-- Python `pat in hay` for strings: `pat` occurs contiguously in `hay`
(the empty pattern occurs everywhere). -/
def occursIn : List Char → List Char → Bool
  | [], pat => pat.isEmpty
  | c :: rest, pat => startsWithL pat (c :: rest) || occursIn rest pat

/-- `any(p in hay for p in pats)`. -/
def hasAny (hay : List Char) (pats : List (List Char)) : Bool :=
  pats.any (fun p => occursIn hay p)

/-- Python `logs.split('\n')`. -/
def splitLines : List Char → List (List Char)
  | [] => [[]]
  | c :: rest =>
    match splitLines rest with
    | [] => [[]]
    | l :: ls => if c = '\n' then [] :: l :: ls else (c :: l) :: ls

/-- Take exactly `n` digit characters from the front, or fail. -/
def takeDigits : Nat → List Char → Option (List Char × List Char)
  | 0, cs => some ([], cs)
  | _ + 1, [] => none
  | n + 1, c :: cs =>
    if c.isDigit then
      match takeDigits n cs with
      | some (d, r) => some (c :: d, r)
      | none => none
    else none

/-- The candidate parses of one regex group `\d{1,3}` at the front of `cs`,
in the greedy backtracking order 3, 2, 1. -/
def numMatches (cs : List Char) : List (List Char × List Char) :=
  [3, 2, 1].filterMap (fun n => takeDigits n cs)

/-- Match the dotted-quad pattern of `LogAnalysisAgent.ip_pattern`
anchored at the front of `cs`, with the usual greedy backtracking. -/
def matchIPAt (cs : List Char) : Option (List Char) :=
  (numMatches cs).findSome? (fun g1 =>
    match g1.2 with
    | '.' :: r1 =>
      (numMatches r1).findSome? (fun g2 =>
        match g2.2 with
        | '.' :: r2 =>
          (numMatches r2).findSome? (fun g3 =>
            match g3.2 with
            | '.' :: r3 =>
              (numMatches r3).findSome? (fun g4 =>
                some (g1.1 ++ '.' :: (g2.1 ++ '.' :: (g3.1 ++ '.' :: g4.1))))
            | _ => none)
        | _ => none)
    | _ => none)

/-- `re.search`: the leftmost match of the dotted-quad pattern. -/
def searchIP : List Char → Option String
  | [] => none
  | c :: cs =>
    match matchIPAt (c :: cs) with
    | some ip => some (String.mk ip)
    | none => searchIP cs

/-- The identity extracted for a line: first dotted-quad match,
`"Unknown"` when absent. -/
def extractIP (cs : List Char) : String :=
  (searchIP cs).getD "Unknown"

/-- A finding built by `LogAnalysisAgent`. -/
def mkFinding (t d s ip : String) : ThreatFinding :=
  { agent_name := "LogAnalysisAgent", threat_type := t, description := d,
    severity := s, source_ip := some ip }

/-- One iteration of the line loop of `LogAnalysisAgent.analyze`: the blank
check, identity extraction, and the nine independent rule blocks in source
order, each appending its finding when its own condition holds. -/
def analyzeLine (cs : List Char) : List ThreatFinding :=
  if cs.all Char.isWhitespace then []
  else
    let ip := extractIP cs
    let low := cs.map Char.toLower
    let up := cs.map Char.toUpper
    (if hasAny low ["authentication failure".data, "failed password".data,
        "unauthorized access".data, "access denied".data] then
      [mkFinding "BRUTE_FORCE" "Repeated authentication failures detected" "HIGH" ip]
    else [])
    ++ (if hasAny up ["SQL INJECTION".data, "SELECT".data, "UNION SELECT".data,
        "INSERT INTO".data, "DROP TABLE".data, "OR 1=1".data] then
      [mkFinding "SQL_INJECTION" "SQL injection pattern in WAF/Application logs" "CRITICAL" ip]
    else [])
    ++ (if hasAny low ["xss attempt".data, "<script>".data, "javascript:".data,
        "onerror=".data] then
      [mkFinding "XSS_ATTACK" "Cross-site scripting attempt blocked" "HIGH" ip]
    else [])
    ++ (if hasAny low ["port scan".data, "nmap".data, "masscan".data]
        || (occursIn low "firewall".data && occursIn low "spt=".data) then
      [mkFinding "NETWORK_RECON" "Abnormal connection patterns or port scanning" "MEDIUM" ip]
    else [])
    ++ (if hasAny low ["../".data, "/etc/passwd".data, "/windows/system32".data,
        "boot.ini".data, "/etc/shadow".data] then
      [mkFinding "PATH_TRAVERSAL" "Attempt to access sensitive files via path traversal" "HIGH" ip]
    else [])
    ++ (if hasAny low ["; cat ".data, "; ls ".data, "&& id".data, "|| whoami".data,
        "curl http".data, "wget http".data, "reverse_shell".data, "/tmp/".data] then
      [mkFinding "COMMAND_INJECTION"
        "Potential OS command injection or suspicious process execution detected" "CRITICAL" ip]
    else [])
    ++ (if hasAny low ["large outbound".data, "gb".data, "mb".data, "tor exit".data,
        "base64".data, "openssl enc".data] then
      [mkFinding "DATA_EXFILTRATION" "Suspicious data transfer or network connection detected" "HIGH" ip]
    else [])
    ++ (if hasAny low ["sqlmap".data, "nikto".data, "dirbuster".data, "gobuster".data,
        "metasploit".data] then
      [mkFinding "RECON_TOOL" "Automated security scanner detected" "MEDIUM" ip]
    else [])
    ++ (if (occursIn low "ssh".data && occursIn low "failed".data)
        || (occursIn low "ftp".data && occursIn low "530".data) then
      [mkFinding "BRUTE_FORCE" "Service-specific authentication failure (SSH/FTP)" "HIGH" ip]
    else [])

/-- `LogAnalysisAgent.analyze`: split on newlines, classify each line. -/
def analyze (logs : String) : List ThreatFinding :=
  (splitLines logs.data).flatMap analyzeLine

/-! ## Network anomaly tracker (`log_ingestors/network_capture.py`)

Timestamps are natural numbers of seconds.  Python compares
`last_seen < now - timedelta(seconds=w)`, rendered here as
`last_seen + w < now`.  The Python dicts are insertion-ordered association
lists; a Python `set` of ports is a first-insertion-ordered duplicate-free
list (only membership, size and emptiness are ever observed). -/

/-- One value of `self.connections`: packet count, distinct destination
ports, and last-seen time. -/
structure ConnEntry where
  count : Nat
  ports : List Nat
  last_seen : Nat
deriving DecidableEq, Repr

/-- One value of `self.syn_packets`: SYN count and last-seen time. -/
structure SynEntry where
  count : Nat
  last_seen : Nat
deriving DecidableEq, Repr

/-- The tracker state of a `NetworkCapture` instance. -/
structure NCState where
  connections : List (String × ConnEntry)
  syn_packets : List (String × SynEntry)
deriving DecidableEq, Repr

/-- The state of a freshly constructed `NetworkCapture`. -/
def NCState.empty : NCState := { connections := [], syn_packets := [] }

/-- A threat dictionary passed to `_report_threat`.  `num` is the
`ports_scanned` count for a port scan and the `packet_count` for a flood. -/
structure Threat where
  ttype : String
  severity : String
  source_ip : String
  target_ip : String
  target_port : Option Nat
  num : Nat
deriving DecidableEq, Repr

/-- `set.add`: insert a port, keeping the set duplicate-free. -/
def insertPort (ps : List Nat) (p : Nat) : List Nat :=
  if p ∈ ps then ps else ps ++ [p]

/-- The three mutations `_process_tcp` performs on `self.connections[key]`
(`defaultdict` access creates a zeroed entry first): bump the count, add
the port, refresh `last_seen`.  Returns the updated entry and map. -/
def bumpConn (m : List (String × ConnEntry)) (k : String) (now port : Nat) :
    ConnEntry × List (String × ConnEntry) :=
  match m with
  | [] => (⟨1, [port], now⟩, [(k, ⟨1, [port], now⟩)])
  | (k', e') :: rest =>
    if k' = k then
      (⟨e'.count + 1, insertPort e'.ports port, now⟩,
       (k', ⟨e'.count + 1, insertPort e'.ports port, now⟩) :: rest)
    else
      let r := bumpConn rest k now port
      (r.1, (k', e') :: r.2)

/-- `self.connections[key]["ports"] = set()` after a port-scan alert. -/
def clearPorts (m : List (String × ConnEntry)) (k : String) :
    List (String × ConnEntry) :=
  m.map (fun kv => if kv.1 = k then (kv.1, { kv.2 with ports := [] }) else kv)

/-- The mutations `_process_tcp` performs on `self.syn_packets[key]`. -/
def bumpSyn (m : List (String × SynEntry)) (k : String) (now : Nat) :
    SynEntry × List (String × SynEntry) :=
  match m with
  | [] => (⟨1, now⟩, [(k, ⟨1, now⟩)])
  | (k', e') :: rest =>
    if k' = k then
      (⟨e'.count + 1, now⟩, (k', ⟨e'.count + 1, now⟩) :: rest)
    else
      let r := bumpSyn rest k now
      (r.1, (k', e') :: r.2)

/-- `self.syn_packets[key]["count"] = 0` after a flood alert. -/
def resetSynCount (m : List (String × SynEntry)) (k : String) :
    List (String × SynEntry) :=
  m.map (fun kv => if kv.1 = k then (kv.1, { kv.2 with count := 0 }) else kv)

/-- `NetworkCapture._process_tcp`: track the connection, alert and clear the
port set at `PORT_SCAN_THRESHOLD = 10` distinct ports, then on a SYN-flagged
packet (`flags & 0x02`) track the flow and alert and zero the counter at
`SYN_FLOOD_THRESHOLD = 50`.  Threats are returned in report order. -/
def processTCP (st : NCState) (now : Nat) (src dst : String) (dport flags : Nat) :
    NCState × List Threat :=
  let ck := src ++ "->" ++ dst
  let b := bumpConn st.connections ck now dport
  let scan :=
    if 10 ≤ b.1.ports.length then
      (clearPorts b.2 ck,
       [⟨"PORT_SCAN", "HIGH", src, dst, none, b.1.ports.length⟩])
    else (b.2, [])
  if flags &&& 2 ≠ 0 then
    let sk := ck ++ ":" ++ toString dport
    let s := bumpSyn st.syn_packets sk now
    if 50 ≤ s.1.count then
      ({ connections := scan.1, syn_packets := resetSynCount s.2 sk },
       scan.2 ++ [⟨"SYN_FLOOD", "CRITICAL", src, dst, some dport, s.1.count⟩])
    else
      ({ connections := scan.1, syn_packets := s.2 }, scan.2)
  else
    ({ connections := scan.1, syn_packets := st.syn_packets }, scan.2)

/-- `NetworkCapture._process_udp`: tracking only, no alerting. -/
def processUDP (st : NCState) (now : Nat) (src dst : String) (dport : Nat) : NCState :=
  { st with connections := (bumpConn st.connections (src ++ "->" ++ dst) now dport).2 }

/-- `NetworkCapture._cleanup_old_entries`: drop connection entries older
than 60 s and SYN entries older than 10 s (strict comparison, as in the
source). -/
def cleanup (st : NCState) (now : Nat) : NCState :=
  { connections := st.connections.filter (fun kv => ¬ (kv.2.last_seen + 60 < now)),
    syn_packets := st.syn_packets.filter (fun kv => ¬ (kv.2.last_seen + 10 < now)) }

/-- A captured packet, as far as `_process_packet` inspects it. -/
inductive Packet
  | tcp (src dst : String) (dport flags : Nat)
  | udp (src dst : String) (dport : Nat)
  | icmp (src dst : String)
deriving DecidableEq, Repr

/-- `NetworkCapture._process_packet` at time `now`: dispatch on the layer,
then run the cleanup pass. -/
def processPacket (st : NCState) (now : Nat) (p : Packet) : NCState × List Threat :=
  let r := match p with
    | .tcp src dst dport flags => processTCP st now src dst dport flags
    | .udp src dst dport => (processUDP st now src dst dport, [])
    | .icmp _ _ => (st, [])
  (cleanup r.1 now, r.2)

/-- Process a timed packet sequence, collecting all reported threats. -/
def runNC (st : NCState) : List (Nat × Packet) → NCState × List Threat
  | [] => (st, [])
  | (t, p) :: rest =>
    let r := processPacket st t p
    let r' := runNC r.1 rest
    (r'.1, r.2 ++ r'.2)

/-! ## Lemmas about the correlation engine -/

theorem sum_map_add {α : Type} (ks : List α) (f g : α → Nat) :
    (ks.map fun x => f x + g x).sum = (ks.map f).sum + (ks.map g).sum := by
  induction ks with
  | nil => simp
  | cons a t ih => simp [ih]; omega

theorem mem_insertKey {ks : List String} {ip x : String} :
    x ∈ insertKey ks ip ↔ x ∈ ks ∨ x = ip := by
  unfold insertKey
  split
  · rename_i h
    constructor
    · exact Or.inl
    · rintro (hx | rfl)
      · exact hx
      · exact h
  · simp

theorem nodup_insertKey {ks : List String} {ip : String} (h : ks.Nodup) :
    (insertKey ks ip).Nodup := by
  unfold insertKey
  split
  · exact h
  · rename_i hip
    simp [List.nodup_append, h, hip]

theorem insertKey_of_mem {ks : List String} {ip : String} (h : ip ∈ ks) :
    insertKey ks ip = ks := by
  simp [insertKey, h]

theorem mem_groupKeysAux {x : String} :
    ∀ (l : List ThreatFinding) (ks : List String),
      x ∈ groupKeysAux ks l ↔ x ∈ ks ∨ ∃ f ∈ l, keyOf f = some x := by
  intro l
  induction l with
  | nil => simp [groupKeysAux]
  | cons f t ih =>
    intro ks
    simp only [groupKeysAux]
    rcases hk : keyOf f with _ | ip
    · rw [ih]
      simp [hk]
    · rw [ih, mem_insertKey]
      constructor
      · rintro ((h | rfl) | h)
        · exact Or.inl h
        · exact Or.inr ⟨f, by simp, hk⟩
        · obtain ⟨g, hg, hgk⟩ := h
          exact Or.inr ⟨g, by simp [hg], hgk⟩
      · rintro (h | ⟨g, hg, hgk⟩)
        · exact Or.inl (Or.inl h)
        · rcases List.mem_cons.mp hg with rfl | hg
          · rw [hk] at hgk
            exact Or.inl (Or.inr (Option.some_injective _ hgk).symm)
          · exact Or.inr ⟨g, hg, hgk⟩

theorem nodup_groupKeysAux :
    ∀ (l : List ThreatFinding) (ks : List String), ks.Nodup → (groupKeysAux ks l).Nodup := by
  intro l
  induction l with
  | nil => intro ks h; exact h
  | cons f t ih =>
    intro ks h
    simp only [groupKeysAux]
    rcases keyOf f with _ | ip
    · exact ih ks h
    · exact ih _ (nodup_insertKey h)

theorem mem_groupKeys {l : List ThreatFinding} {x : String} :
    x ∈ groupKeys l ↔ ∃ f ∈ l, keyOf f = some x := by
  rw [groupKeys, mem_groupKeysAux]
  simp

theorem nodup_groupKeys (l : List ThreatFinding) : (groupKeys l).Nodup :=
  nodup_groupKeysAux l [] List.nodup_nil

theorem sum_indicator_zero {ks : List String} {a : String} (h : a ∉ ks) :
    (ks.map fun ip => if a = ip then (1 : Nat) else 0).sum = 0 := by
  induction ks with
  | nil => simp
  | cons b t ih =>
    simp only [List.mem_cons, not_or] at h
    simp [h.1, ih h.2]

theorem sum_indicator_le_one {ks : List String} {a : String} (h : ks.Nodup) :
    (ks.map fun ip => if a = ip then (1 : Nat) else 0).sum ≤ 1 := by
  induction ks with
  | nil => simp
  | cons b t ih =>
    rcases List.nodup_cons.mp h with ⟨hb, ht⟩
    by_cases hab : a = b
    · subst hab
      simp [sum_indicator_zero hb]
    · simp only [List.map_cons, List.sum_cons, if_neg hab]
      simpa using ih ht

theorem groupOf_cons (f : ThreatFinding) (t : List ThreatFinding) (ip : String) :
    groupOf (f :: t) ip =
      if keyOf f = some ip then f :: groupOf t ip else groupOf t ip := by
  simp only [groupOf, List.filter_cons]
  split
  · rename_i h
    rw [if_pos (by simpa using h)]
  · rename_i h
    rw [if_neg (by simpa using h)]

theorem unknownFindings_cons (f : ThreatFinding) (t : List ThreatFinding) :
    unknownFindings (f :: t) =
      if keyOf f = none then f :: unknownFindings t else unknownFindings t := by
  simp only [unknownFindings, List.filter_cons]
  split
  · rename_i h
    rw [if_pos (by simpa using h)]
  · rename_i h
    rw [if_neg (by simpa using h)]

theorem total_count :
    ∀ (l : List ThreatFinding) (ks : List String), ks.Nodup →
      (unknownFindings l).length +
        (ks.map fun ip => (groupOf l ip).length).sum ≤ l.length := by
  intro l
  induction l with
  | nil => intro ks _; simp [unknownFindings, groupOf]
  | cons f t ih =>
    intro ks hks
    have hrw : (ks.map fun ip => (groupOf (f :: t) ip).length).sum =
        (ks.map fun ip => (if keyOf f = some ip then (1 : Nat) else 0)
          + (groupOf t ip).length).sum := by
      congr 1
      apply List.map_congr_left
      intro ip _
      rw [groupOf_cons]
      split <;> simp <;> omega
    rw [hrw, sum_map_add, unknownFindings_cons]
    have hone : (if keyOf f = none then (1 : Nat) else 0) +
        (ks.map fun ip => if keyOf f = some ip then (1 : Nat) else 0).sum ≤ 1 := by
      rcases hk : keyOf f with _ | a
      · have : (ks.map fun ip => if (none : Option String) = some ip then (1 : Nat) else 0).sum
            = 0 := by
          induction ks with
          | nil => simp
          | cons b u ihb => simpa using ihb (List.nodup_cons.mp hks).2
        simp_all
      · have : (ks.map fun ip => if (some a : Option String) = some ip then (1 : Nat) else 0).sum
            = (ks.map fun ip => if a = ip then (1 : Nat) else 0).sum := by
          congr 1
          apply List.map_congr_left
          intro ip _
          by_cases hip : a = ip <;> simp [hip]
        simp only [if_neg (by simp : ¬ (some a : Option String) = none)]
        rw [this]
        simpa using sum_indicator_le_one hks
    have ht := ih ks hks
    split
    · rename_i hk
      simp only [List.length_cons]
      rw [if_pos hk] at hone
      omega
    · rename_i hk
      simp only [List.length_cons]
      rw [if_neg hk] at hone
      omega

theorem groupEvents_length_le {ip : String} {fs : List ThreatFinding} (h : fs ≠ []) :
    (groupEvents ip fs).length ≤ fs.length := by
  have hpos : 1 ≤ fs.length := List.length_pos.mpr h
  simp only [groupEvents]
  split
  · simpa using hpos
  · split
    · simpa using hpos
    · split
      · simpa using hpos
      · simp

theorem groupEvents_ne_nil {ip : String} {fs : List ThreatFinding} (h : fs ≠ []) :
    groupEvents ip fs ≠ [] := by
  simp only [groupEvents]
  split
  · simp
  · split
    · simp
    · split
      · simp
      · simpa using h

theorem groupOf_ne_nil {l : List ThreatFinding} {ip : String} (h : ip ∈ groupKeys l) :
    groupOf l ip ≠ [] := by
  obtain ⟨f, hf, hk⟩ := mem_groupKeys.mp h
  intro hnil
  have : f ∈ groupOf l ip := by
    simp [groupOf, List.mem_filter, hf, hk]
  simp [hnil] at this

theorem groupKeysAux_const {ip : String} :
    ∀ (l : List ThreatFinding) (ks : List String), l ≠ [] →
      (∀ f ∈ l, keyOf f = some ip) → groupKeysAux ks l = insertKey ks ip := by
  intro l
  induction l with
  | nil => intro ks h; exact absurd rfl h
  | cons f t ih =>
    intro ks _ hall
    have hf : keyOf f = some ip := hall f (by simp)
    simp only [groupKeysAux, hf]
    rcases ht : t with _ | ⟨g, u⟩
    · simp [groupKeysAux]
    · rw [← ht, ih (insertKey ks ip) (by simp [ht]) (fun g hg => hall g (by simp [hg]))]
      exact insertKey_of_mem (mem_insertKey.mpr (Or.inr rfl))

/-- When every finding carries the same known identity, `correlate` reduces
to the campaign/pass-through events of that single group. -/
theorem correlate_single_group {l : List ThreatFinding} {ip : String}
    (hne : l ≠ []) (hall : ∀ f ∈ l, keyOf f = some ip) :
    correlate l = groupEvents ip l := by
  have hunk : unknownFindings l = [] := by
    simp only [unknownFindings, List.filter_eq_nil_iff]
    intro f hf
    simp [hall f hf]
  have hkeys : groupKeys l = [ip] := by
    rw [groupKeys, groupKeysAux_const l [] hne hall]
    rfl
  have hgrp : groupOf l ip = l := by
    apply List.filter_eq_self.mpr
    intro f hf
    simp [hall f hf]
  rw [correlate, hunk, hkeys]
  simp [hgrp]

theorem groupKeysAux_nokeys :
    ∀ (l : List ThreatFinding) (ks : List String),
      (∀ f ∈ l, keyOf f = none) → groupKeysAux ks l = ks := by
  intro l
  induction l with
  | nil => intro ks _; rfl
  | cons f t ih =>
    intro ks hall
    simp only [groupKeysAux, hall f (by simp)]
    exact ih ks (fun g hg => hall g (by simp [hg]))

/-- C4: a single identity group containing both BRUTE_FORCE and
SQL_INJECTION, with no email-origin and no scan-origin findings, collapses
to exactly one ADVANCED_PERSISTENT_THREAT / CRITICAL event (no additional
pass-through events for the group). -/
theorem c4_brute_force_injection_priority (l : List ThreatFinding)
    (hall : ∀ f ∈ l, keyOf f = some "10.0.0.5")
    (hbf : "BRUTE_FORCE" ∈ l.map (fun f => f.threat_type))
    (hsql : "SQL_INJECTION" ∈ l.map (fun f => f.threat_type))
    (hem : "EmailVerificationAgent" ∉ l.map (fun f => f.agent_name))
    (hscan : "IPRangeAnalyzerAgent" ∉ l.map (fun f => f.agent_name)) :
    correlate l = [{ attack := "ADVANCED_PERSISTENT_THREAT", severity := "CRITICAL",
                     source := "10.0.0.5", agent := none,
                     description := "IP 10.0.0.5 exhibited brute force followed by injection attempts." }] := by
  have hne : l ≠ [] := by
    intro h
    subst h
    simp at hbf
  rw [correlate_single_group hne hall]
  simp only [groupEvents]
  rw [if_neg (fun h => hem h.1), if_neg (fun h => hscan h.1), if_pos ⟨hbf, Or.inl hsql⟩]
  decide

/-- Witness for C4 at a concrete two-finding group. -/
theorem c4_witness :
    correlate [⟨"LogAnalysisAgent", "BRUTE_FORCE", "d1", "HIGH", some "10.0.0.5"⟩,
               ⟨"LogAnalysisAgent", "SQL_INJECTION", "d2", "CRITICAL", some "10.0.0.5"⟩] =
      [{ attack := "ADVANCED_PERSISTENT_THREAT", severity := "CRITICAL",
         source := "10.0.0.5", agent := none,
         description := "IP 10.0.0.5 exhibited brute force followed by injection attempts."
         : CorrelatedEvent }] :=
  c4_brute_force_injection_priority _ (by decide) (by decide) (by decide) (by decide) (by decide)

/-- C1 fails on the code: a group whose threat types are NETWORK_RECON and
BRUTE_FORCE (sharing one known identity, matching none of the three
implemented patterns) yields two pass-through events and no
TARGETED_ATTACK_CAMPAIGN event — `correlate` has no recon-to-exploit rule. -/
theorem c1_counterexample :
    (∀ f ∈ [(⟨"LogAnalysisAgent", "NETWORK_RECON", "d1", "MEDIUM", some "9.9.9.9"⟩ : ThreatFinding),
            ⟨"LogAnalysisAgent", "BRUTE_FORCE", "d2", "HIGH", some "9.9.9.9"⟩],
        keyOf f = some "9.9.9.9") ∧
    "NETWORK_RECON" ∈ List.map (fun f => f.threat_type)
      [(⟨"LogAnalysisAgent", "NETWORK_RECON", "d1", "MEDIUM", some "9.9.9.9"⟩ : ThreatFinding),
       ⟨"LogAnalysisAgent", "BRUTE_FORCE", "d2", "HIGH", some "9.9.9.9"⟩] ∧
    "BRUTE_FORCE" ∈ List.map (fun f => f.threat_type)
      [(⟨"LogAnalysisAgent", "NETWORK_RECON", "d1", "MEDIUM", some "9.9.9.9"⟩ : ThreatFinding),
       ⟨"LogAnalysisAgent", "BRUTE_FORCE", "d2", "HIGH", some "9.9.9.9"⟩] ∧
    correlate [⟨"LogAnalysisAgent", "NETWORK_RECON", "d1", "MEDIUM", some "9.9.9.9"⟩,
               ⟨"LogAnalysisAgent", "BRUTE_FORCE", "d2", "HIGH", some "9.9.9.9"⟩] =
      [passEvent "9.9.9.9" ⟨"LogAnalysisAgent", "NETWORK_RECON", "d1", "MEDIUM", some "9.9.9.9"⟩,
       passEvent "9.9.9.9" ⟨"LogAnalysisAgent", "BRUTE_FORCE", "d2", "HIGH", some "9.9.9.9"⟩] ∧
    (∀ e ∈ correlate [⟨"LogAnalysisAgent", "NETWORK_RECON", "d1", "MEDIUM", some "9.9.9.9"⟩,
               ⟨"LogAnalysisAgent", "BRUTE_FORCE", "d2", "HIGH", some "9.9.9.9"⟩],
        ¬ e.attack = "TARGETED_ATTACK_CAMPAIGN") := by
  decide

/-- C1 (amended): there is no recon-to-exploit rule.  A group sharing one
known identity whose threat types contain NETWORK_RECON together with
BRUTE_FORCE or SQL_INJECTION, and which matches none of the three
implemented patterns, is emitted as one pass-through event per member
finding (preserving each finding's threat type and severity); no
TARGETED_ATTACK_CAMPAIGN event exists in the code. -/
theorem c1_no_recon_rule (l : List ThreatFinding) (ip : String)
    (hall : ∀ f ∈ l, keyOf f = some ip)
    (hnr : "NETWORK_RECON" ∈ l.map (fun f => f.threat_type))
    (_hco : "BRUTE_FORCE" ∈ l.map (fun f => f.threat_type) ∨
      "SQL_INJECTION" ∈ l.map (fun f => f.threat_type))
    (h1 : ¬("EmailVerificationAgent" ∈ l.map (fun f => f.agent_name) ∧
      "LogAnalysisAgent" ∈ l.map (fun f => f.agent_name)))
    (h2 : ¬("IPRangeAnalyzerAgent" ∈ l.map (fun f => f.agent_name) ∧
      "LogAnalysisAgent" ∈ l.map (fun f => f.agent_name)))
    (h3 : ¬("BRUTE_FORCE" ∈ l.map (fun f => f.threat_type) ∧
      ("SQL_INJECTION" ∈ l.map (fun f => f.threat_type) ∨
       "XSS_ATTACK" ∈ l.map (fun f => f.threat_type)))) :
    correlate l = l.map (passEvent ip) := by
  have hne : l ≠ [] := by
    intro h
    subst h
    simp at hnr
  rw [correlate_single_group hne hall]
  simp only [groupEvents]
  rw [if_neg h1, if_neg h2, if_neg h3]

/-- Witness for the amended C1. -/
theorem c1_no_recon_rule_witness :
    correlate [⟨"IPRangeAnalyzerAgent", "NETWORK_RECON", "d1", "MEDIUM", some "5.5.5.5"⟩,
               ⟨"WebLogAgent", "SQL_INJECTION", "d2", "CRITICAL", some "5.5.5.5"⟩] =
      List.map (passEvent "5.5.5.5")
        [⟨"IPRangeAnalyzerAgent", "NETWORK_RECON", "d1", "MEDIUM", some "5.5.5.5"⟩,
         ⟨"WebLogAgent", "SQL_INJECTION", "d2", "CRITICAL", some "5.5.5.5"⟩] :=
  c1_no_recon_rule _ _ (by decide) (by decide) (by decide) (by decide)
    (by decide) (by decide)

theorem groupEvents_source {ip : String} {fs : List ThreatFinding} :
    ∀ e ∈ groupEvents ip fs, e.source = ip := by
  intro e he
  simp only [groupEvents] at he
  split at he
  · rw [List.mem_singleton] at he
    subst he
    rfl
  · split at he
    · rw [List.mem_singleton] at he
      subst he
      rfl
    · split at he
      · rw [List.mem_singleton] at he
        subst he
        rfl
      · obtain ⟨f, _, rfl⟩ := List.mem_map.mp he
        rfl

theorem groupKeys_ne_unknown {l : List ThreatFinding} {ip : String}
    (h : ip ∈ groupKeys l) : ¬ (ip = "" ∨ ip = "Unknown") := by
  obtain ⟨f, _, hk⟩ := mem_groupKeys.mp h
  unfold keyOf at hk
  rcases hs : f.source_ip with _ | s
  · rw [hs] at hk
    simp at hk
  · rw [hs] at hk
    by_cases hcond : s = "" ∨ s = "Unknown"
    · simp [hcond] at hk
    · simp [hcond] at hk
      subst hk
      exact hcond

/-- C8: for every input list, the events of `correlate` whose source is
"Unknown" are exactly one pass-through event per unknown-identity finding,
in input order — findings carrying the "Unknown" sentinel are never merged
with each other or into any identity group, even when their threat types
match a campaign pattern, and each such finding yields its own event with
source "Unknown". -/
theorem c8_unknown_isolation (l : List ThreatFinding) :
    (correlate l).filter (fun e => e.source = "Unknown") =
      (l.filter (fun f => keyOf f = none)).map unknownEvent ∧
    ∀ f ∈ l, f.source_ip = some "Unknown" → unknownEvent f ∈ correlate l := by
  constructor
  · rw [correlate, List.filter_append]
    have h1 : ((unknownFindings l).map unknownEvent).filter
        (fun e => e.source = "Unknown") = (unknownFindings l).map unknownEvent := by
      apply List.filter_eq_self.mpr
      intro e he
      obtain ⟨f, _, rfl⟩ := List.mem_map.mp he
      simp [unknownEvent]
    have h2 : ((groupKeys l).flatMap (fun ip => groupEvents ip (groupOf l ip))).filter
        (fun e => e.source = "Unknown") = [] := by
      rw [List.filter_eq_nil_iff]
      intro e he
      obtain ⟨ip, hip, hei⟩ := List.mem_flatMap.mp he
      have hsrc := groupEvents_source e hei
      have hne := groupKeys_ne_unknown hip
      simp only [hsrc, decide_eq_true_eq]
      exact fun hcon => hne (Or.inr hcon)
    rw [h1, h2, List.append_nil]
    rfl
  · intro f hf hs
    have hk : keyOf f = none := by simp [keyOf, hs]
    have hmem : f ∈ unknownFindings l := by
      simp [unknownFindings, List.mem_filter, hf, hk]
    rw [correlate]
    exact List.mem_append_left _ (List.mem_map_of_mem unknownEvent hmem)

/-- Witness for C8 at a mixed list: two Unknown-sentinel findings whose
threat types match the brute-force-to-injection pattern, together with one
known-identity finding; the Unknown findings remain individual events. -/
theorem c8_witness :
    (correlate [⟨"LogAnalysisAgent", "BRUTE_FORCE", "d1", "HIGH", some "Unknown"⟩,
                ⟨"LogAnalysisAgent", "SQL_INJECTION", "d2", "CRITICAL", some "Unknown"⟩,
                ⟨"LogAnalysisAgent", "XSS_ATTACK", "d3", "HIGH", some "3.3.3.3"⟩]).filter
        (fun e => e.source = "Unknown") =
      (([⟨"LogAnalysisAgent", "BRUTE_FORCE", "d1", "HIGH", some "Unknown"⟩,
         ⟨"LogAnalysisAgent", "SQL_INJECTION", "d2", "CRITICAL", some "Unknown"⟩,
         ⟨"LogAnalysisAgent", "XSS_ATTACK", "d3", "HIGH", some "3.3.3.3"⟩] :
        List ThreatFinding).filter (fun f => keyOf f = none)).map unknownEvent ∧
    unknownEvent ⟨"LogAnalysisAgent", "BRUTE_FORCE", "d1", "HIGH", some "Unknown"⟩ ∈
      correlate [⟨"LogAnalysisAgent", "BRUTE_FORCE", "d1", "HIGH", some "Unknown"⟩,
                 ⟨"LogAnalysisAgent", "SQL_INJECTION", "d2", "CRITICAL", some "Unknown"⟩,
                 ⟨"LogAnalysisAgent", "XSS_ATTACK", "d3", "HIGH", some "3.3.3.3"⟩] :=
  ⟨(c8_unknown_isolation
      [⟨"LogAnalysisAgent", "BRUTE_FORCE", "d1", "HIGH", some "Unknown"⟩,
       ⟨"LogAnalysisAgent", "SQL_INJECTION", "d2", "CRITICAL", some "Unknown"⟩,
       ⟨"LogAnalysisAgent", "XSS_ATTACK", "d3", "HIGH", some "3.3.3.3"⟩]).1,
   (c8_unknown_isolation
      [⟨"LogAnalysisAgent", "BRUTE_FORCE", "d1", "HIGH", some "Unknown"⟩,
       ⟨"LogAnalysisAgent", "SQL_INJECTION", "d2", "CRITICAL", some "Unknown"⟩,
       ⟨"LogAnalysisAgent", "XSS_ATTACK", "d3", "HIGH", some "3.3.3.3"⟩]).2
     ⟨"LogAnalysisAgent", "BRUTE_FORCE", "d1", "HIGH", some "Unknown"⟩
     (by decide) (by decide)⟩

/-- C10: `correlate` emits at most one event per input finding, and a
non-empty finding list yields a non-empty event list (each identity group
contributes at least one event; each unknown-identity finding contributes
exactly one). -/
theorem c10_correlate_size (l : List ThreatFinding) :
    (correlate l).length ≤ l.length ∧ (l ≠ [] → correlate l ≠ []) := by
  constructor
  · have hlen : (correlate l).length = (unknownFindings l).length +
        ((groupKeys l).map fun ip => (groupEvents ip (groupOf l ip)).length).sum := by
      simp [correlate, List.length_flatMap, Function.comp_def]
    have hsum : ((groupKeys l).map fun ip => (groupEvents ip (groupOf l ip)).length).sum ≤
        ((groupKeys l).map fun ip => (groupOf l ip).length).sum :=
      List.sum_le_sum (fun ip hip => groupEvents_length_le (groupOf_ne_nil hip))
    have htot := total_count l (groupKeys l) (nodup_groupKeys l)
    omega
  · intro hne
    rcases hl : l with _ | ⟨f, t⟩
    · exact absurd hl hne
    · rw [← hl]
      rcases hk : keyOf f with _ | ip
      · have hmem : f ∈ unknownFindings l := by
          simp [unknownFindings, List.mem_filter, hl, hk]
        exact List.ne_nil_of_mem
          (List.mem_append_left _ (List.mem_map_of_mem unknownEvent hmem))
      · have hip : ip ∈ groupKeys l := mem_groupKeys.mpr ⟨f, by simp [hl], hk⟩
        obtain ⟨e, he⟩ := List.exists_mem_of_ne_nil _ (groupEvents_ne_nil (groupOf_ne_nil hip))
        exact List.ne_nil_of_mem
          (List.mem_append_right _ (List.mem_flatMap.mpr ⟨ip, hip, he⟩))

/-- Witness for C10 at a concrete mixed list (one unknown identity,
two grouped findings). -/
theorem c10_witness :
    (correlate [⟨"LogAnalysisAgent", "XSS_ATTACK", "d0", "HIGH", none⟩,
                ⟨"LogAnalysisAgent", "BRUTE_FORCE", "d1", "HIGH", some "7.7.7.7"⟩,
                ⟨"LogAnalysisAgent", "XSS_ATTACK", "d2", "HIGH", some "7.7.7.7"⟩]).length ≤
      ([(⟨"LogAnalysisAgent", "XSS_ATTACK", "d0", "HIGH", none⟩ : ThreatFinding),
        ⟨"LogAnalysisAgent", "BRUTE_FORCE", "d1", "HIGH", some "7.7.7.7"⟩,
        ⟨"LogAnalysisAgent", "XSS_ATTACK", "d2", "HIGH", some "7.7.7.7"⟩]).length ∧
    correlate [⟨"LogAnalysisAgent", "XSS_ATTACK", "d0", "HIGH", none⟩,
               ⟨"LogAnalysisAgent", "BRUTE_FORCE", "d1", "HIGH", some "7.7.7.7"⟩,
               ⟨"LogAnalysisAgent", "XSS_ATTACK", "d2", "HIGH", some "7.7.7.7"⟩] ≠ [] :=
  ⟨(c10_correlate_size _).1, (c10_correlate_size _).2 (by decide)⟩

/-! ## Lemmas about the decision fallback -/

/-- C3 fails on the code: the fallback decision for a HIGH-severity
PORT_SCAN event carries severity MEDIUM, from the default table row, not
the event's own severity. -/
theorem c3_counterexample :
    mock_reason [⟨"PORT_SCAN", "HIGH", "1.2.3.4", none, "scan"⟩] =
      [⟨"PERIMETER_REINFORCEMENT", "MEDIUM",
        ["Update WAF rules", "Patch affected application components"],
        "Detected PORT_SCAN pattern requiring mitigation"⟩] ∧
    ¬ ("MEDIUM" : String) = "HIGH" := by
  decide

/-- C3 (amended): the fallback decision's severity is a function of the
event's attack tag alone — CRITICAL for the two matched table rows, MEDIUM
otherwise — and is unchanged under any change of the event's own severity. -/
theorem c3_severity_from_table (e : CorrelatedEvent) :
    (mockDecide e).severity =
      (if e.attack = "ACCOUNT_COMPROMISE" ∨ e.attack = "ADVANCED_PERSISTENT_THREAT"
          ∨ e.attack = "DATABASE_ATTACK" ∨ e.attack = "SQL_INJECTION"
       then "CRITICAL" else "MEDIUM") ∧
    ∀ sev : String, (mockDecide { e with severity := sev }).severity =
      (mockDecide e).severity := by
  constructor
  · unfold mockDecide
    split
    · rename_i h1
      rw [if_pos (by tauto)]
    · split
      · rename_i h1 h2
        rw [if_pos (by tauto)]
      · rename_i h1 h2
        rw [if_neg (by tauto)]
  · intro sev
    simp only [mockDecide]

/-- C7: with the reasoning oracle unavailable, the fallback is a pure
function emitting exactly one decision per input event; an event with
attack SQL_INJECTION maps to DATABASE_ISOLATION / CRITICAL with exactly 3
actions and a non-empty reason, and an attack matching no table row maps to
PERIMETER_REINFORCEMENT / MEDIUM. -/
theorem c7_fallback_determinism (events : List CorrelatedEvent) (e : CorrelatedEvent) :
    (mock_reason events).length = events.length ∧
    (e.attack = "SQL_INJECTION" →
      mock_reason [e] = [⟨"DATABASE_ISOLATION", "CRITICAL",
        ["Kill active DB sessions", "Reset database credentials", "Lock down database subnet"],
        "High-severity SQL injection attempts detected"⟩] ∧
      ∀ d ∈ mock_reason [e], d.actions.length = 3 ∧ ¬ d.reason = "") ∧
    (¬ (e.attack = "ACCOUNT_COMPROMISE" ∨ e.attack = "ADVANCED_PERSISTENT_THREAT"
        ∨ e.attack = "DATABASE_ATTACK" ∨ e.attack = "SQL_INJECTION") →
      mock_reason [e] = [⟨"PERIMETER_REINFORCEMENT", "MEDIUM",
        ["Update WAF rules", "Patch affected application components"],
        "Detected " ++ e.attack ++ " pattern requiring mitigation"⟩]) := by
  refine ⟨by simp [mock_reason], fun h => ?_, fun h => ?_⟩
  · have hd : mockDecide e = ⟨"DATABASE_ISOLATION", "CRITICAL",
        ["Kill active DB sessions", "Reset database credentials", "Lock down database subnet"],
        "High-severity SQL injection attempts detected"⟩ := by
      unfold mockDecide
      rw [if_neg (by simp [h]), if_pos (Or.inr h)]
    refine ⟨by simp [mock_reason, hd], ?_⟩
    intro d hdm
    simp only [mock_reason, List.map_cons, List.map_nil, List.mem_singleton] at hdm
    subst hdm
    rw [hd]
    exact ⟨rfl, by decide⟩
  · have hd : mockDecide e = ⟨"PERIMETER_REINFORCEMENT", "MEDIUM",
        ["Update WAF rules", "Patch affected application components"],
        "Detected " ++ e.attack ++ " pattern requiring mitigation"⟩ := by
      unfold mockDecide
      rw [if_neg (by tauto), if_neg (by tauto)]
    simp [mock_reason, hd]

/-- Witness for C7: the SQL_INJECTION row and a default-row attack. -/
theorem c7_witness :
    (mock_reason [⟨"SQL_INJECTION", "CRITICAL", "1.2.3.4", none, "x"⟩] =
      [⟨"DATABASE_ISOLATION", "CRITICAL",
        ["Kill active DB sessions", "Reset database credentials", "Lock down database subnet"],
        "High-severity SQL injection attempts detected"⟩]) ∧
    mock_reason [⟨"DATA_EXFILTRATION", "HIGH", "2.2.2.2", none, "y"⟩] =
      [⟨"PERIMETER_REINFORCEMENT", "MEDIUM",
        ["Update WAF rules", "Patch affected application components"],
        "Detected " ++ "DATA_EXFILTRATION" ++ " pattern requiring mitigation"⟩] :=
  ⟨((c7_fallback_determinism []
      ⟨"SQL_INJECTION", "CRITICAL", "1.2.3.4", none, "x"⟩).2.1 rfl).1,
   (c7_fallback_determinism []
      ⟨"DATA_EXFILTRATION", "HIGH", "2.2.2.2", none, "y"⟩).2.2 (by decide)⟩

/-! ## Lemmas about the network anomaly tracker -/

theorem tcp_step_no_scan (src dst : String) (c : Nat) (q : List Nat) (t0 now p : Nat)
    (hp : p ∉ q) (hlen : q.length + 1 < 10) :
    processPacket ⟨[(src ++ "->" ++ dst, ⟨c, q, t0⟩)], []⟩ now (.tcp src dst p 0) =
      (⟨[(src ++ "->" ++ dst, ⟨c + 1, q ++ [p], now⟩)], []⟩, []) := by
  have h2 : ¬ (9 ≤ q.length) := by omega
  have h3 : ¬ (now + 60 < now) := by omega
  simp [processPacket, processTCP, bumpConn, insertPort, cleanup, hp, h2, h3]

theorem tcp_step_empty (src dst : String) (now p : Nat) :
    processPacket NCState.empty now (.tcp src dst p 0) =
      (⟨[(src ++ "->" ++ dst, ⟨1, [p], now⟩)], []⟩, []) := by
  have h3 : ¬ (now + 60 < now) := by omega
  simp [processPacket, processTCP, bumpConn, NCState.empty, cleanup, h3]

theorem tcp_step_scan (src dst : String) (c : Nat) (q : List Nat) (t0 now p : Nat)
    (hp : p ∉ q) (hlen : q.length = 9) :
    processPacket ⟨[(src ++ "->" ++ dst, ⟨c, q, t0⟩)], []⟩ now (.tcp src dst p 0) =
      (⟨[(src ++ "->" ++ dst, ⟨c + 1, [], now⟩)], []⟩,
       [⟨"PORT_SCAN", "HIGH", src, dst, none, 10⟩]) := by
  have h2 : 9 ≤ q.length := by omega
  have h3 : ¬ (now + 60 < now) := by omega
  simp [processPacket, processTCP, bumpConn, insertPort, clearPorts, cleanup, hp, h2, h3, hlen]

theorem runNC_append (st : NCState) (l1 l2 : List (Nat × Packet)) :
    runNC st (l1 ++ l2) =
      ((runNC (runNC st l1).1 l2).1,
       (runNC st l1).2 ++ (runNC (runNC st l1).1 l2).2) := by
  induction l1 generalizing st with
  | nil => simp [runNC]
  | cons x t ih =>
    simp only [List.cons_append, runNC, List.append_eq]
    rw [ih]
    simp [List.append_assoc]

theorem runNC_scan_accum (src dst : String) :
    ∀ (pts : List (Nat × Nat)) (c : Nat) (q : List Nat) (t0 : Nat),
      (∀ pr ∈ pts, pr.2 ∉ q) → (pts.map Prod.snd).Nodup →
      q.length + pts.length ≤ 9 →
      runNC ⟨[(src ++ "->" ++ dst, ⟨c, q, t0⟩)], []⟩
          (pts.map (fun pr => (pr.1, Packet.tcp src dst pr.2 0))) =
        (⟨[(src ++ "->" ++ dst, ⟨c + pts.length, q ++ pts.map Prod.snd,
            (pts.map Prod.fst).getLastD t0⟩)], []⟩, []) := by
  intro pts
  induction pts with
  | nil => intro c q t0 _ _ _; simp [runNC]
  | cons pr rest ih =>
    intro c q t0 hfresh hnd hlen
    have hnd' : (pr.2 :: List.map Prod.snd rest).Nodup := by simpa using hnd
    obtain ⟨hhead, htail⟩ := List.nodup_cons.mp hnd'
    simp only [List.map_cons, runNC]
    rw [tcp_step_no_scan src dst c q t0 pr.1 pr.2 (hfresh pr (by simp))
      (by simp at hlen; omega)]
    rw [ih (c + 1) (q ++ [pr.2]) pr.1 ?fresh ?nd ?len]
    · have hc : c + 1 + rest.length = c + (rest.length + 1) := by omega
      simp only [List.length_cons, List.map_cons, List.getLastD_cons, hc,
        List.append_assoc, List.singleton_append, List.append_nil, List.nil_append]
    case fresh =>
      intro qr hqr
      simp only [List.mem_append, List.mem_singleton, not_or]
      refine ⟨hfresh qr (by simp [hqr]), ?_⟩
      intro heq
      exact hhead (heq ▸ List.mem_map_of_mem Prod.snd hqr)
    case nd => exact htail
    case len => simp at hlen ⊢; omega

/-- C5: within the window, 9 distinct destination ports from one
(source, dest) pair yield no report; the 10th distinct port yields exactly
one HIGH-severity PORT_SCAN report and clears only the distinct-port set
(the entry survives with count 10), and up to 9 further new ports do not
re-trigger. -/
theorem c5_port_scan_threshold (src dst : String) (pts : List (Nat × Nat)) (tp p10 : Nat)
    (hnd : (pts.map Prod.snd).Nodup) (hlen : pts.length = 9)
    (hp10 : p10 ∉ pts.map Prod.snd) :
    (runNC NCState.empty (pts.map (fun pr => (pr.1, Packet.tcp src dst pr.2 0)))).2 = [] ∧
    runNC NCState.empty ((pts.map (fun pr => (pr.1, Packet.tcp src dst pr.2 0)))
        ++ [(tp, Packet.tcp src dst p10 0)]) =
      (⟨[(src ++ "->" ++ dst, ⟨10, [], tp⟩)], []⟩,
       [⟨"PORT_SCAN", "HIGH", src, dst, none, 10⟩]) ∧
    (∀ (qts : List (Nat × Nat)), (qts.map Prod.snd).Nodup → qts.length ≤ 9 →
      (runNC ⟨[(src ++ "->" ++ dst, ⟨10, [], tp⟩)], []⟩
        (qts.map (fun pr => (pr.1, Packet.tcp src dst pr.2 0)))).2 = []) := by
  rcases pts with _ | ⟨pr, rest⟩
  · simp at hlen
  · have hnd' : (pr.2 :: rest.map Prod.snd).Nodup := by simpa using hnd
    obtain ⟨hhead, htail⟩ := List.nodup_cons.mp hnd'
    have hrest : rest.length = 8 := by simp at hlen; omega
    have hfresh : ∀ qr ∈ rest, qr.2 ∉ [pr.2] := by
      intro qr hqr
      simp only [List.mem_singleton]
      intro heq
      exact hhead (heq ▸ List.mem_map_of_mem Prod.snd hqr)
    have h9 : runNC NCState.empty
        ((pr :: rest).map (fun pr => (pr.1, Packet.tcp src dst pr.2 0))) =
        (⟨[(src ++ "->" ++ dst, ⟨9, pr.2 :: rest.map Prod.snd,
            (rest.map Prod.fst).getLastD pr.1⟩)], []⟩, []) := by
      simp only [List.map_cons, runNC]
      rw [tcp_step_empty]
      rw [runNC_scan_accum src dst rest 1 [pr.2] pr.1 hfresh htail (by simp [hrest])]
      simp [hrest]
    refine ⟨by rw [h9], ?_, ?_⟩
    · rw [runNC_append, h9]
      simp only [runNC]
      rw [tcp_step_scan src dst 9 (pr.2 :: rest.map Prod.snd)
        ((rest.map Prod.fst).getLastD pr.1) tp p10 (by simpa using hp10)
        (by simp [hrest])]
      simp
    · intro qts hq hqlen
      rw [runNC_scan_accum src dst qts 10 [] tp (by simp) hq (by simpa using hqlen)]

theorem syn_step_empty (src dst : String) (now port : Nat) :
    processPacket NCState.empty now (.tcp src dst port 2) =
      (⟨[(src ++ "->" ++ dst, ⟨1, [port], now⟩)],
        [(src ++ "->" ++ dst ++ ":" ++ toString port, ⟨1, now⟩)]⟩, []) := by
  have h3 : ¬ (now + 60 < now) := by omega
  have h4 : ¬ (now + 10 < now) := by omega
  simp [processPacket, processTCP, bumpConn, bumpSyn, NCState.empty, cleanup, h3, h4]

theorem syn_step_no_flood (src dst : String) (port cc sc t0 t1 now : Nat)
    (hc : sc + 1 < 50) :
    processPacket ⟨[(src ++ "->" ++ dst, ⟨cc, [port], t0⟩)],
        [(src ++ "->" ++ dst ++ ":" ++ toString port, ⟨sc, t1⟩)]⟩ now
        (.tcp src dst port 2) =
      (⟨[(src ++ "->" ++ dst, ⟨cc + 1, [port], now⟩)],
        [(src ++ "->" ++ dst ++ ":" ++ toString port, ⟨sc + 1, now⟩)]⟩, []) := by
  have h1 : ¬ (50 ≤ sc + 1) := by omega
  have h3 : ¬ (now + 60 < now) := by omega
  have h4 : ¬ (now + 10 < now) := by omega
  simp [processPacket, processTCP, bumpConn, bumpSyn, insertPort, cleanup, h1, h3, h4]

theorem syn_step_flood (src dst : String) (port cc t0 t1 now : Nat) :
    processPacket ⟨[(src ++ "->" ++ dst, ⟨cc, [port], t0⟩)],
        [(src ++ "->" ++ dst ++ ":" ++ toString port, ⟨49, t1⟩)]⟩ now
        (.tcp src dst port 2) =
      (⟨[(src ++ "->" ++ dst, ⟨cc + 1, [port], now⟩)],
        [(src ++ "->" ++ dst ++ ":" ++ toString port, ⟨0, now⟩)]⟩,
       [⟨"SYN_FLOOD", "CRITICAL", src, dst, some port, 50⟩]) := by
  have h3 : ¬ (now + 60 < now) := by omega
  have h4 : ¬ (now + 10 < now) := by omega
  simp [processPacket, processTCP, bumpConn, bumpSyn, insertPort, resetSynCount,
    cleanup, h3, h4]

theorem runNC_syn_accum (src dst : String) (port : Nat) :
    ∀ (ts : List Nat) (cc sc t0 t1 : Nat), sc + ts.length ≤ 49 →
      runNC ⟨[(src ++ "->" ++ dst, ⟨cc, [port], t0⟩)],
          [(src ++ "->" ++ dst ++ ":" ++ toString port, ⟨sc, t1⟩)]⟩
          (ts.map (fun t => (t, Packet.tcp src dst port 2))) =
        (⟨[(src ++ "->" ++ dst, ⟨cc + ts.length, [port], ts.getLastD t0⟩)],
          [(src ++ "->" ++ dst ++ ":" ++ toString port,
            ⟨sc + ts.length, ts.getLastD t1⟩)]⟩, []) := by
  intro ts
  induction ts with
  | nil => intro cc sc t0 t1 _; simp [runNC]
  | cons t rest ih =>
    intro cc sc t0 t1 hlen
    simp only [List.map_cons, runNC]
    rw [syn_step_no_flood src dst port cc sc t0 t1 t (by simp at hlen; omega)]
    rw [ih (cc + 1) (sc + 1) t t (by simp at hlen; omega)]
    have h1 : cc + 1 + rest.length = cc + (rest.length + 1) := by omega
    have h2 : sc + 1 + rest.length = sc + (rest.length + 1) := by omega
    simp only [List.length_cons, List.getLastD_cons, h1, h2, List.append_nil,
      List.nil_append]

/-- C6: 49 SYN-flagged observations on one (source, dest, port) triple
yield no report; the 50th yields exactly one CRITICAL SYN_FLOOD report and
resets that key's counter to zero. -/
theorem c6_syn_flood_threshold (src dst : String) (port : Nat) (ts : List Nat)
    (t50 : Nat) (hlen : ts.length = 49) :
    (runNC NCState.empty (ts.map (fun t => (t, Packet.tcp src dst port 2)))).2 = [] ∧
    runNC NCState.empty ((ts.map (fun t => (t, Packet.tcp src dst port 2)))
        ++ [(t50, Packet.tcp src dst port 2)]) =
      (⟨[(src ++ "->" ++ dst, ⟨50, [port], t50⟩)],
        [(src ++ "->" ++ dst ++ ":" ++ toString port, ⟨0, t50⟩)]⟩,
       [⟨"SYN_FLOOD", "CRITICAL", src, dst, some port, 50⟩]) := by
  rcases ts with _ | ⟨t1, rest⟩
  · simp at hlen
  · have hrest : rest.length = 48 := by simp at hlen; omega
    have h49 : runNC NCState.empty
        ((t1 :: rest).map (fun t => (t, Packet.tcp src dst port 2))) =
        (⟨[(src ++ "->" ++ dst, ⟨49, [port], rest.getLastD t1⟩)],
          [(src ++ "->" ++ dst ++ ":" ++ toString port,
            ⟨49, rest.getLastD t1⟩)]⟩, []) := by
      simp only [List.map_cons, runNC]
      rw [syn_step_empty]
      rw [runNC_syn_accum src dst port rest 1 1 t1 t1 (by omega)]
      simp [hrest]
    refine ⟨by rw [h49], ?_⟩
    rw [runNC_append, h49]
    simp only [runNC]
    rw [syn_step_flood src dst port 49 (rest.getLastD t1) (rest.getLastD t1) t50]
    simp

/-- C2 fails on the code: the per-packet update runs before cleanup, so a
fresh observation on a key stale for 100 s (window 60 s) continues the
pre-expiry count and port set — 9 ports at t=0 plus a 10th at t=100 fire a
PORT_SCAN from the stale data, and a 2-packet variant leaves count 2 and a
2-port set instead of restarting from 1. -/
theorem c2_counterexample :
    (runNC NCState.empty
      [(0, .tcp "A" "B" 1 0), (0, .tcp "A" "B" 2 0), (0, .tcp "A" "B" 3 0),
       (0, .tcp "A" "B" 4 0), (0, .tcp "A" "B" 5 0), (0, .tcp "A" "B" 6 0),
       (0, .tcp "A" "B" 7 0), (0, .tcp "A" "B" 8 0), (0, .tcp "A" "B" 9 0),
       (100, .tcp "A" "B" 10 0)] =
      (⟨[("A->B", ⟨10, [], 100⟩)], []⟩,
       [⟨"PORT_SCAN", "HIGH", "A", "B", none, 10⟩])) ∧
    (0 : Nat) + 60 < 100 ∧
    (runNC NCState.empty
      [(0, .tcp "A" "B" 1 0), (100, .tcp "A" "B" 2 0)]).1.connections =
      [("A->B", ⟨2, [1, 2], 100⟩)] := by
  decide

/-- C2 (amended): the cleanup pass that ends every processed packet purges
all stale entries, so after any processed packet no connection entry is
older than 60 s and no SYN entry older than 10 s relative to that packet's
time; the continuation of a stale key's own counts (update before cleanup)
is exhibited by the counterexample. -/
theorem c2_no_stale_after_processing (st : NCState) (now : Nat) (p : Packet) :
    (∀ kv ∈ (processPacket st now p).1.connections, now ≤ kv.2.last_seen + 60) ∧
    (∀ kv ∈ (processPacket st now p).1.syn_packets, now ≤ kv.2.last_seen + 10) := by
  cases p <;>
  · constructor <;>
    · intro kv hkv
      simp only [processPacket, cleanup, List.mem_filter, decide_not,
        Bool.not_eq_eq_eq_not, Bool.not_true, decide_eq_false_iff_not,
        Nat.not_lt] at hkv
      exact of_decide_eq_true hkv.2

theorem c2_no_stale_witness : (100 : Nat) ≤ 100 + 60 :=
  (c2_no_stale_after_processing
    ⟨[("A->B", ⟨9, [1, 2, 3, 4, 5, 6, 7, 8, 9], 0⟩)], []⟩ 100
    (.tcp "C" "D" 1 0)).1 ("C->D", ⟨1, [1], 100⟩) (by decide)

/-- C9: the classifier rules are evaluated independently, without
short-circuiting: any non-blank line containing both "failed password" and
"/etc/passwd" (case-insensitively) yields both a BRUTE_FORCE and a
PATH_TRAVERSAL finding for that line. -/
theorem c9_rules_not_short_circuited (logs : String) (line : List Char)
    (hmem : line ∈ splitLines logs.data)
    (hnb : line.all Char.isWhitespace = false)
    (h1 : occursIn (line.map Char.toLower) "failed password".data = true)
    (h2 : occursIn (line.map Char.toLower) "/etc/passwd".data = true) :
    (∃ f ∈ analyzeLine line, f.threat_type = "BRUTE_FORCE" ∧ f ∈ analyze logs) ∧
    (∃ f ∈ analyzeLine line, f.threat_type = "PATH_TRAVERSAL" ∧ f ∈ analyze logs) := by
  have hc1 : hasAny (line.map Char.toLower)
      ["authentication failure".data, "failed password".data,
       "unauthorized access".data, "access denied".data] = true := by
    apply List.any_eq_true.mpr
    exact ⟨"failed password".data, by simp, h1⟩
  have hc5 : hasAny (line.map Char.toLower)
      ["../".data, "/etc/passwd".data, "/windows/system32".data,
       "boot.ini".data, "/etc/shadow".data] = true := by
    apply List.any_eq_true.mpr
    exact ⟨"/etc/passwd".data, by simp, h2⟩
  have hb : mkFinding "BRUTE_FORCE" "Repeated authentication failures detected" "HIGH"
      (extractIP line) ∈ analyzeLine line := by
    simp [analyzeLine, hnb, hc1]
  have hp : mkFinding "PATH_TRAVERSAL"
      "Attempt to access sensitive files via path traversal" "HIGH"
      (extractIP line) ∈ analyzeLine line := by
    simp [analyzeLine, hnb, hc5, mkFinding]
  have hup : ∀ f ∈ analyzeLine line, f ∈ analyze logs := by
    intro f hf
    rw [analyze]
    exact List.mem_flatMap.mpr ⟨line, hmem, hf⟩
  exact ⟨⟨_, hb, rfl, hup _ hb⟩, ⟨_, hp, rfl, hup _ hp⟩⟩

/-- Witness for C5: ports 1..9 then port 10 from "A" to "B". -/
theorem c5_witness :
    (runNC NCState.empty
      ([((0 : Nat), (1 : Nat)), (0, 2), (0, 3), (0, 4), (0, 5), (0, 6), (0, 7),
        (0, 8), (0, 9)].map (fun pr => (pr.1, Packet.tcp "A" "B" pr.2 0)))).2 = [] ∧
    runNC NCState.empty
      (([((0 : Nat), (1 : Nat)), (0, 2), (0, 3), (0, 4), (0, 5), (0, 6), (0, 7),
        (0, 8), (0, 9)].map (fun pr => (pr.1, Packet.tcp "A" "B" pr.2 0)))
        ++ [(5, Packet.tcp "A" "B" 10 0)]) =
      (⟨[("A" ++ "->" ++ "B", ⟨10, [], 5⟩)], []⟩,
       [⟨"PORT_SCAN", "HIGH", "A", "B", none, 10⟩]) ∧
    (runNC ⟨[("A" ++ "->" ++ "B", ⟨10, [], 5⟩)], []⟩
      ([((7 : Nat), (11 : Nat))].map (fun pr => (pr.1, Packet.tcp "A" "B" pr.2 0)))).2 = [] :=
  ⟨(c5_port_scan_threshold "A" "B" [((0 : Nat), (1 : Nat)), (0, 2), (0, 3), (0, 4), (0, 5), (0, 6), (0, 7), (0, 8), (0, 9)]
      5 10 (by decide) (by decide) (by decide)).1,
   (c5_port_scan_threshold "A" "B" [((0 : Nat), (1 : Nat)), (0, 2), (0, 3), (0, 4), (0, 5), (0, 6), (0, 7), (0, 8), (0, 9)]
      5 10 (by decide) (by decide) (by decide)).2.1,
   (c5_port_scan_threshold "A" "B" [((0 : Nat), (1 : Nat)), (0, 2), (0, 3), (0, 4), (0, 5), (0, 6), (0, 7), (0, 8), (0, 9)]
      5 10 (by decide) (by decide) (by decide)).2.2 [(7, 11)] (by decide) (by decide)⟩

/-- Witness for C6: 49 SYN packets then the 50th on (A, B, 80). -/
theorem c6_witness :
    (runNC NCState.empty
      ((List.replicate 49 (0 : Nat)).map (fun t => (t, Packet.tcp "A" "B" 80 2)))).2 = [] ∧
    runNC NCState.empty
      (((List.replicate 49 (0 : Nat)).map (fun t => (t, Packet.tcp "A" "B" 80 2)))
        ++ [(3, Packet.tcp "A" "B" 80 2)]) =
      (⟨[("A" ++ "->" ++ "B", ⟨50, [80], 3⟩)],
        [("A" ++ "->" ++ "B" ++ ":" ++ toString 80, ⟨0, 3⟩)]⟩,
       [⟨"SYN_FLOOD", "CRITICAL", "A", "B", some 80, 50⟩]) :=
  ⟨(c6_syn_flood_threshold "A" "B" 80 (List.replicate 49 0) 3 (by decide)).1,
   (c6_syn_flood_threshold "A" "B" 80 (List.replicate 49 0) 3 (by decide)).2⟩

/-- Witness for C9 at a line holding both an auth-failure phrase and a
path-traversal phrase. -/
theorem c9_witness :
    (∃ f ∈ analyzeLine "failed password for root from 10.0.0.5 /etc/passwd".data,
      f.threat_type = "BRUTE_FORCE" ∧
      f ∈ analyze "failed password for root from 10.0.0.5 /etc/passwd") ∧
    (∃ f ∈ analyzeLine "failed password for root from 10.0.0.5 /etc/passwd".data,
      f.threat_type = "PATH_TRAVERSAL" ∧
      f ∈ analyze "failed password for root from 10.0.0.5 /etc/passwd") :=
  c9_rules_not_short_circuited "failed password for root from 10.0.0.5 /etc/passwd"
    "failed password for root from 10.0.0.5 /etc/passwd".data
    (by decide) (by decide) (by decide) (by decide)
